import Mathlib

/-!
Shallow embedding of the Homberger VRPTW instance ingestion pipeline.

The repository contains two variants of `parse_homberger_file`:
  * `src/optimization/utils/homberger_to_parquet.py` — the landmark-search
    variant: it scans the (stripped, non-empty) lines for the first line
    starting with `"CUSTOMER"`, reads `num_customers capacity` from the line
    before it, and parses every later line with exactly 7 whitespace tokens.
  * `src/utils/homberger_to_parquet.py` — the fixed-offset variant: it reads
    the header from line index 4 and the data rows from indices
    `9 .. 9 + declared_count - 1` (skipping indices beyond the end of file).

Both parsers receive the file as a list of stripped non-empty lines
(`[line.strip() for line in f.readlines() if line.strip()]`); the embedding
takes that normalized line list as input.

Modelling conventions:
  * Python `int` is `Int`; Python `float` is the exact decimal `PyFloat`
    below (the pipeline only parses, stores and compares coordinate floats,
    and the fleet-size arithmetic is carried out exactly; the claims settled
    here do not depend on binary floating-point rounding).
  * Python exceptions are an explicit error type `PyErr`, and fallible code
    returns `Except PyErr _`.
  * `pd.DataFrame(customers).astype {...}` raises `KeyError` when `customers`
    is empty (the empty frame has no columns); otherwise the dtype casts are
    modelled as exact.
  * `int(x)` applied to the non-finite float produced by dividing by a zero
    capacity raises (`OverflowError` for `inf`, `ValueError` for `nan`);
    this is `PyErr.floatCastError`.
  * `PyErr.invalidCapacityError` and `PyErr.schemaViolationError` are error
    kinds named by the specification; the embedded code never produces them,
    and they are present so that claims mentioning them can be stated.
-/

deriving instance DecidableEq for Except

inductive PyErr where
  | valueError (msg : String)
  | indexError
  | keyError
  | floatCastError
  | invalidCapacityError
  | schemaViolationError
deriving DecidableEq, Repr

/-- A Python float holding an exact decimal value `mantissa / 10 ^ exp10`.
The pipeline only parses, stores and compares these (never adds or rounds
them), so exact decimals model them faithfully. The representation is kept
normalized (no trailing zero digits in the fraction), which makes structural
equality coincide with Python's value equality on decimals. -/
structure PyFloat where
  mantissa : Int
  exp10 : Nat
deriving DecidableEq, Repr

/-- Strip trailing decimal zeros: canonical form of a decimal. -/
def stripZeros : Int → Nat → PyFloat
  | m, 0 => ⟨m, 0⟩
  | m, k + 1 => if m % 10 = 0 then stripZeros (m / 10) k else ⟨m, k + 1⟩

/-- The rational value denoted by a `PyFloat`. -/
def PyFloat.toRat (f : PyFloat) : ℚ := (f.mantissa : ℚ) / 10 ^ f.exp10

/-- One parsed row (`customer_data` dict in the source): depot or customer. -/
structure CustomerData where
  customer_id : Int
  x : PyFloat
  y : PyFloat
  demand : Int
  tw_start : Int
  tw_end : Int
  service_time : Int
deriving DecidableEq, Repr

/-- The `depot` sub-dictionary of the params output. -/
structure DepotParams where
  x : PyFloat
  y : PyFloat
  tw_start : Int
  tw_end : Int
  service_time : Int
deriving DecidableEq, Repr

/-- The `params` dictionary returned by `parse_homberger_file`
(`instance` is a Lean keyword, hence `instance_name`). -/
structure Params where
  instance_name : String
  K : Int
  Q : Int
  depot : DepotParams
deriving DecidableEq, Repr

/-- Split a character list on whitespace, dropping empty pieces:
Python's `str.split()` with no argument. -/
def splitWsAux : List Char → List Char → List (List Char)
  | [], acc => if acc = [] then [] else [acc.reverse]
  | c :: cs, acc =>
      if c.isWhitespace then
        (if acc = [] then splitWsAux cs [] else acc.reverse :: splitWsAux cs [])
      else splitWsAux cs (c :: acc)

/-- `line.split()` — the whitespace tokens of a line. -/
def tokens (s : String) : List String :=
  (splitWsAux s.toList []).map String.mk

/-- `line.startswith(p)`. -/
def strStartsWith (s p : String) : Bool :=
  decide (s.toList.take p.toList.length = p.toList)

/-- Python list indexing `xs[i]`: negative indices count from the end,
out-of-range raises `IndexError`. -/
def pyGet {α : Type} (xs : List α) (i : Int) : Except PyErr α :=
  let j : Int := if i < 0 then i + xs.length else i
  if h : 0 ≤ j ∧ j < xs.length then
    .ok (xs.get ⟨j.toNat, by omega⟩)
  else .error .indexError

/-- Accumulate the value of a digit string; `none` when a non-digit occurs. -/
def digitsValAux : List Char → Nat → Option Nat
  | [], acc => some acc
  | c :: cs, acc =>
      if c.isDigit then digitsValAux cs (acc * 10 + (c.toNat - 48)) else none

/-- Python `int(s)` on a whitespace-free token: optional sign then digits. -/
def pyInt (s : String) : Except PyErr Int :=
  let core : List Char → Except PyErr Int := fun cs =>
    if cs = [] then .error (.valueError s)
    else match digitsValAux cs 0 with
      | some n => .ok (n : Int)
      | none => .error (.valueError s)
  match s.toList with
  | '-' :: cs => (core cs).map (fun n => -n)
  | '+' :: cs => core cs
  | cs => core cs

/-- Unsigned float literal: digits, optionally a point and fraction digits;
at least one digit overall. The decimal `a.b` with `k` fraction digits
denotes `(a * 10^k + b) / 10^k`, stored in stripped canonical form. -/
def pyFloatCore (cs : List Char) (orig : String) : Except PyErr PyFloat :=
  let ip := cs.takeWhile (fun c => c ≠ '.')
  let rest := cs.drop ip.length
  match rest with
  | [] =>
      if cs = [] then .error (.valueError orig)
      else match digitsValAux cs 0 with
        | some n => .ok ⟨(n : Int), 0⟩
        | none => .error (.valueError orig)
  | _ :: fp =>
      if ip = [] ∧ fp = [] then .error (.valueError orig)
      else match digitsValAux ip 0, digitsValAux fp 0 with
        | some a, some b => .ok (stripZeros ((a * 10 ^ fp.length + b : Nat) : Int) fp.length)
        | _, _ => .error (.valueError orig)

/-- Python `float(s)` on a whitespace-free token (no exponent forms, which do
not occur in Homberger files). -/
def pyFloat (s : String) : Except PyErr PyFloat :=
  match s.toList with
  | '-' :: cs => (pyFloatCore cs s).map (fun f => ⟨-f.mantissa, f.exp10⟩)
  | '+' :: cs => pyFloatCore cs s
  | cs => pyFloatCore cs s

/-- `estimated_vehicles = max(1, int((total_demand / vehicle_capacity) * 1.2))`.
The float expression `(total_demand / vehicle_capacity) * 1.2` denotes the
rational `6 * total_demand / (5 * cap)`, and `int()` truncates toward zero,
which on an integer quotient is `Int.tdiv`; the theorem for claim C3 below
proves this equal to the specification's `max(1, floor(td / cap * 1.2))`. -/
def estimatedVehicles (total_demand cap : Int) : Int :=
  max 1 ((6 * total_demand).tdiv (5 * cap))

/-- Cast one tokenized row to `customer_data`, in the source's evaluation
order: `int(parts[0]), float(parts[1]), float(parts[2]), int(parts[3]),
int(parts[4]), int(parts[5]), int(parts[6])`. Indexing a missing token raises
`IndexError`; a failed numeric cast raises `ValueError`. -/
def castRow (parts : List String) : Except PyErr CustomerData := do
  let s0 ← pyGet parts 0
  let cid ← pyInt s0
  let s1 ← pyGet parts 1
  let xv ← pyFloat s1
  let s2 ← pyGet parts 2
  let yv ← pyFloat s2
  let s3 ← pyGet parts 3
  let dm ← pyInt s3
  let s4 ← pyGet parts 4
  let ts ← pyInt s4
  let s5 ← pyGet parts 5
  let te ← pyInt s5
  let s6 ← pyGet parts 6
  let sv ← pyInt s6
  pure ⟨cid, xv, yv, dm, ts, te, sv⟩

/-- The row loop of the landmark-search variant over the lines after the
sentinel: a line whose token count differs from 7 is skipped; otherwise the
row is cast and routed to the depot slot (`id == 0`, later rows overwrite
earlier ones) or appended to the customers list. -/
def collectLandmark : List String → Except PyErr (Option CustomerData × List CustomerData)
  | [] => .ok (none, [])
  | l :: ls =>
      if (tokens l).length = 7 then do
        let r ← castRow (tokens l)
        let (d, cs) ← collectLandmark ls
        if r.customer_id = 0 then .ok (d <|> some r, cs)
        else .ok (d, r :: cs)
      else collectLandmark ls

/-- The row loop of the fixed-offset variant over explicit line indices
(`range(9, 9 + declared_count)`): indices beyond the end of the file are
silently skipped (`if i < len(lines)`); a reached line is cast with no
token-count guard. -/
def collectFixed (lines : List String) : List Nat → Except PyErr (Option CustomerData × List CustomerData)
  | [] => .ok (none, [])
  | i :: is =>
      if h : i < lines.length then do
        let r ← castRow (tokens (lines.get ⟨i, h⟩))
        let (d, cs) ← collectFixed lines is
        if r.customer_id = 0 then .ok (d <|> some r, cs)
        else .ok (d, r :: cs)
      else collectFixed lines is

/-- The shared tail of both parsers: build the customers frame (`KeyError` on
an empty list), sum the demand, derive `K` (the zero-capacity division yields
a non-finite float whose `int()` cast raises), and package the params with the
depot row or the hardcoded default `(50.0, 50.0, 0, 1000, 0)`. -/
def finishParse (name : String) (cap : Int)
    (dc : Option CustomerData × List CustomerData) :
    Except PyErr (List CustomerData × Params) :=
  let (depot, customers) := dc
  if customers = [] then .error .keyError
  else
    let total_demand : Int := (customers.map (·.demand)).sum
    if cap = 0 then .error .floatCastError
    else
      .ok (customers,
        { instance_name := name
          K := estimatedVehicles total_demand cap
          Q := cap
          depot :=
            match depot with
            | some d => ⟨d.x, d.y, d.tw_start, d.tw_end, d.service_time⟩
            | none => ⟨⟨50, 0⟩, ⟨50, 0⟩, 0, 1000, 0⟩ })

/-- The sentinel scan of the landmark variant: index of the first line
starting with `"CUSTOMER"`. -/
def findSentinel : List String → Option Nat
  | [] => none
  | l :: ls =>
      if strStartsWith l "CUSTOMER" then some 0
      else (findSentinel ls).map (· + 1)

/-- `parse_homberger_file` of `src/optimization/utils/homberger_to_parquet.py`
(landmark-search variant), on the normalized line list. -/
def parseHombergerLandmark (lines : List String) :
    Except PyErr (List CustomerData × Params) :=
  match findSentinel lines with
  | none => .error (.valueError "CUSTOMER header not found in file")
  | some idx => do
      let name ← pyGet lines 0
      let hline ← pyGet lines ((idx : Int) - 1)
      let hp := tokens hline
      let h0 ← pyGet hp 0
      let _n0 ← pyInt h0
      let h1 ← pyGet hp 1
      let cap ← pyInt h1
      let dc ← collectLandmark (lines.drop (idx + 1))
      finishParse name cap dc

/-- `parse_homberger_file` of `src/utils/homberger_to_parquet.py`
(fixed-offset variant), on the normalized line list. -/
def parseHombergerFixed (lines : List String) :
    Except PyErr (List CustomerData × Params) := do
  let name ← pyGet lines 0
  let hline ← pyGet lines 4
  let hp := tokens hline
  let h0 ← pyGet hp 0
  let n0 ← pyInt h0
  let h1 ← pyGet hp 1
  let cap ← pyInt h1
  let dc ← collectFixed lines ((List.range n0.toNat).map (9 + ·))
  finishParse name cap dc

/-! ### Claim-side helper definitions -/

/-- The lines the landmark row loop keeps: exactly those with 7 tokens. -/
def keptLines (ls : List String) : List String :=
  ls.filter (fun l => (tokens l).length = 7)

/-- The rows obtained by casting each kept line (used to describe the loop's
output when every kept line casts successfully). -/
def rowsOf (ls : List String) : List CustomerData :=
  (keptLines ls).filterMap (fun l => (castRow (tokens l)).toOption)

/-- The depot/customer split the row loops perform on an already-cast row
list: rows with `id == 0` go to the depot slot (the last one wins), the rest
keep their order. -/
def pyPartition : List CustomerData → Option CustomerData × List CustomerData
  | [] => (none, [])
  | r :: rs =>
      let (d, cs) := pyPartition rs
      if r.customer_id = 0 then (d <|> some r, cs) else (d, r :: cs)

/-- Whether a token casts successfully in field position `k` of a row:
positions 1 and 2 (`x`, `y`) are float casts, the rest are int casts. -/
def fieldOk (k : Nat) (s : String) : Bool :=
  match k with
  | 1 => (pyFloat s).toOption.isSome
  | 2 => (pyFloat s).toOption.isSome
  | _ => (pyInt s).toOption.isSome

/-! ### Concrete instance files used by the claims -/

/-- A fixed-offset-layout file (header at line index 4, rows from index 9)
with no sentinel line anywhere. -/
def c1FixedFile : List String :=
  ["HOM1", "VEHICLE", "NUMBER CAPACITY", "FILLER", "3 200", "FILLERA",
   "FILLERB", "FILLERC", "FILLERD", "0 40.0 50.0 0 0 1000 0",
   "1 10.0 20.0 5 0 100 10", "2 30.0 40.0 7 5 50 10"]

/-- The landmark-layout file holding the same data as `c1FixedFile`. -/
def c1LandmarkFile : List String :=
  ["HOM1", "3 200", "CUSTOMER", "0 40.0 50.0 0 0 1000 0",
   "1 10.0 20.0 5 0 100 10", "2 30.0 40.0 7 5 50 10"]

/-- A landmark file with a duplicated customer id and a row whose time window
is reversed (`tw_start = 10 > 3 = tw_end`). -/
def c2File : List String :=
  ["HOM2", "4 100", "CUSTOMER", "0 50.0 50.0 0 0 1000 0",
   "1 10.0 20.0 5 10 3 2", "1 30.0 40.0 7 0 5 0"]

/-- A landmark file with two `id == 0` rows. -/
def c2TwoDepotFile : List String :=
  ["HOM2B", "4 100", "CUSTOMER", "0 1.0 2.0 0 0 10 0", "0 3.0 4.0 0 0 20 0",
   "1 10.0 20.0 5 0 100 10"]

/-- The customer rows of the spec's C3 scenario: ids 1..99, each demand 20. -/
def c3Rows : List String :=
  (List.range 99).map (fun i => toString (i + 1) ++ " 10.0 20.0 20 0 1000 10")

/-- The spec's C3 scenario: header `"100 200"`, sentinel `"CUSTOMER"`, the
depot row `"0 50.0 50.0 0 0 1000 0"`, and 99 customer rows of demand 20. -/
def c3File : List String :=
  ["C3TEST", "100 200", "CUSTOMER", "0 50.0 50.0 0 0 1000 0"] ++ c3Rows

/-- A landmark file with a customer row of demand `-5`. -/
def c4File : List String :=
  ["HOM4", "2 100", "CUSTOMER", "0 50.0 50.0 0 0 1000 0",
   "2 1.0 1.0 -5 0 10 0"]

/-- A landmark file with customer demands `-7` and `4`. -/
def c4PassFile : List String :=
  ["HOM4B", "3 100", "CUSTOMER", "0 50.0 50.0 0 0 1000 0",
   "1 1.0 1.0 -7 0 10 0", "2 2.0 2.0 4 0 10 0"]

/-- A landmark file whose declared vehicle capacity is zero. -/
def c5File : List String :=
  ["HOM5", "2 0", "CUSTOMER", "0 50.0 50.0 0 0 1000 0", "1 1.0 1.0 5 0 10 0"]

/-- A landmark file with no `id == 0` row. -/
def c6NoDepotFile : List String :=
  ["HOM6", "3 100", "CUSTOMER", "1 10.0 20.0 5 0 100 10",
   "2 30.0 40.0 7 5 50 10"]

/-- The same file with an explicit depot row whose fields equal the code's
hardcoded default depot. -/
def c6DepotFile : List String :=
  ["HOM6", "3 100", "CUSTOMER", "0 50.0 50.0 0 0 1000 0",
   "1 10.0 20.0 5 0 100 10", "2 30.0 40.0 7 5 50 10"]

/-- Lines after a sentinel: a 7-token depot row, a stray annotation line,
and a 7-token customer row. -/
def c8WitnessLines : List String :=
  ["0 1.0 2.0 3 4 5 6", "stray annotation line", "1 1.0 2.0 3 4 5 6"]

/-- A fixed-offset file whose second data row has only 2 tokens. -/
def c9File : List String :=
  ["HOM9", "F1", "F2", "F3", "2 100", "F5", "F6", "F7", "F8",
   "0 50.0 50.0 0 0 1000 0", "5 2.0"]

/-- A landmark file declaring 100 points but containing only 2 data rows. -/
def c10FewFile : List String :=
  ["HOM10A", "100 50", "CUSTOMER", "0 50.0 50.0 0 0 1000 0",
   "1 1.0 1.0 5 0 10 0"]

/-- A landmark file declaring 1 point but containing 4 data rows. -/
def c10ManyFile : List String :=
  ["HOM10B", "1 50", "CUSTOMER", "0 50.0 50.0 0 0 1000 0",
   "1 1.0 1.0 5 0 10 0", "2 1.0 2.0 6 0 10 0", "3 1.0 3.0 7 0 10 0"]

/-! ### Shared helper lemmas -/

/-- The code's truncating integer form of the fleet-size estimate agrees with
the specification's `max(1, floor(total_demand / capacity * 1.2))` for every
positive capacity (truncation and floor differ only on negative non-integer
quotients, where both are clamped to 1 by the outer `max`). -/
theorem estimatedVehicles_eq_max_one_floor (td cap : Int) (h : 0 < cap) :
    estimatedVehicles td cap = max 1 ⌊(td : ℚ) / (cap : ℚ) * (6 / 5)⌋ := by
  have hb : ((5 * cap).toNat : ℤ) = 5 * cap := Int.toNat_of_nonneg (by omega)
  have hfl : ⌊(td : ℚ) / (cap : ℚ) * (6 / 5)⌋ = (6 * td) / (5 * cap) := by
    calc ⌊(td : ℚ) / (cap : ℚ) * (6 / 5)⌋
        = ⌊((6 * td : ℤ) : ℚ) / (((5 * cap).toNat : ℕ) : ℚ)⌋ := by
          congr 1
          have hc : (((5 * cap).toNat : ℕ) : ℚ) = ((5 * cap : ℤ) : ℚ) := by
            exact_mod_cast congrArg (fun z : ℤ => (z : ℚ)) hb
          rw [hc]
          have hcapQ : (cap : ℚ) ≠ 0 := by positivity
          push_cast
          field_simp
          ring
      _ = (6 * td) / ((5 * cap).toNat : ℤ) := Rat.floor_intCast_div_natCast _ _
      _ = (6 * td) / (5 * cap) := by rw [hb]
  unfold estimatedVehicles
  rw [hfl]
  rcases le_or_lt 0 td with htd | htd
  · rw [Int.tdiv_eq_ediv (by omega) (by omega)]
  · have h1 : (6 * td).tdiv (5 * cap) ≤ 0 := by
      have := Int.tdiv_nonneg (a := -(6 * td)) (b := 5 * cap) (by omega) (by omega)
      rw [Int.neg_tdiv] at this
      omega
    have h2 : (6 * td) / (5 * cap) ≤ 0 := by
      have := Int.ediv_le_ediv (a := 6 * td) (b := 0) (c := 5 * cap) (by omega) (by omega)
      simpa using this
    omega

/-! ### Claim theorems -/

/-- Claim C1, counterexample: the landmark-variant parser, given a
fixed-offset file with no sentinel line, raises
`ValueError("CUSTOMER header not found in file")` instead of falling back to
the fixed-offset rule — even though the same file parses fine under the
fixed-offset parser, so the data itself is well-formed. -/
theorem c1_no_fallback_counterexample :
    parseHombergerLandmark c1FixedFile =
      .error (.valueError "CUSTOMER header not found in file") ∧
    (parseHombergerFixed c1FixedFile).isOk = true := by
  decide

/-- Claim C1, amended: the source has two separate parsers with no fallback
between them; the landmark parser fails on a sentinel-less file, while the
fixed-offset parser applied to a fixed-offset file produces exactly the same
records and `InstanceParameters` as the landmark parser applied to an
equivalent landmark-variant file with identical data. -/
theorem c1_two_parsers_amended :
    parseHombergerFixed c1FixedFile = parseHombergerLandmark c1LandmarkFile ∧
    (parseHombergerFixed c1FixedFile).isOk = true := by
  decide

/-- Claim C2, counterexample: a file with a duplicated customer id and a
record with `tw_start = 10 > 3 = tw_end` is not rejected — it parses
successfully and both violating records appear in the output. -/
theorem c2_invariants_counterexample :
    (parseHombergerLandmark c2File).map
        (fun r => r.1.map (fun c => (c.customer_id, c.tw_start, c.tw_end))) =
      .ok [(1, 10, 3), (1, 0, 5)] := by
  decide

/-- Claim C2, amended: the pipeline enforces no invariants: duplicate ids and
reversed time windows pass through unchanged, and when several records have
`id == 0` the last silently becomes the depot; no input is rejected on these
grounds. -/
theorem c2_no_validation_amended :
    (parseHombergerLandmark c2TwoDepotFile).map (fun r => r.2.depot) =
      .ok ⟨⟨3, 0⟩, ⟨4, 0⟩, 0, 20, 0⟩ ∧
    (parseHombergerLandmark c2File).isOk = true := by
  decide

set_option maxRecDepth 20000 in
/-- Claim C3: for every positive capacity the code's fleet-size estimate is
`max(1, floor(total_demand / capacity * 1.2))`, and on the spec's concrete
scenario (depot plus 99 customers of demand 20, capacity 200) the parsed
total demand is 1980 and `K = 11`. -/
theorem c3_fleet_size_formula :
    (∀ td cap : Int, 0 < cap →
      estimatedVehicles td cap = max 1 ⌊(td : ℚ) / (cap : ℚ) * (6 / 5)⌋) ∧
    (parseHombergerLandmark c3File).map
        (fun r => ((r.1.map (·.demand)).sum, r.2.K)) = .ok (1980, 11) := by
  constructor
  · exact estimatedVehicles_eq_max_one_floor
  · decide

/-- Claim C3, witness: the fleet-size formula instantiated at the scenario's
`total_demand = 1980`, `capacity = 200`. -/
theorem c3_fleet_size_formula_witness :
    estimatedVehicles 1980 200 = max 1 ⌊(1980 : ℚ) / (200 : ℚ) * (6 / 5)⌋ :=
  c3_fleet_size_formula.1 1980 200 (by norm_num)

/-- Claim C4, counterexample: a row with `demand = -5` does not fail with any
error — the conversion succeeds and the value `-5` appears unchanged in the
output records. -/
theorem c4_negative_demand_counterexample :
    (parseHombergerLandmark c4File).map (fun r => r.1.map (·.demand)) =
      .ok [-5] := by
  decide

/-- Claim C4, amended: negative demands are neither rejected nor clamped:
they pass through into the output records unchanged, and the conversion
succeeds (the code defines no `SchemaViolationError`). -/
theorem c4_negative_demand_amended :
    (parseHombergerLandmark c4PassFile).map (fun r => r.1.map (·.demand)) =
      .ok [-7, 4] ∧
    parseHombergerLandmark c4PassFile ≠ .error .schemaViolationError := by
  decide

/-- Claim C5, counterexample: with a declared capacity of zero the conversion
fails with the cast error raised by `int()` on the non-finite quotient, not
with an `InvalidCapacityError`. -/
theorem c5_zero_capacity_counterexample :
    parseHombergerLandmark c5File = .error .floatCastError ∧
    parseHombergerLandmark c5File ≠ .error .invalidCapacityError := by
  decide

/-- Claim C5, amended: a zero capacity is not caught before the division; the
quotient becomes non-finite and the conversion fails at the `int()` cast in
the fleet-size estimate, for every instance with at least one customer. -/
theorem c5_zero_capacity_amended
    (name : String) (depot : Option CustomerData)
    (customers : List CustomerData) (hne : customers ≠ []) :
    finishParse name 0 (depot, customers) = .error .floatCastError := by
  unfold finishParse
  simp [hne]

/-- Claim C5, amended witness: the zero-capacity failure at a concrete
instance. -/
theorem c5_zero_capacity_amended_witness :
    finishParse "HOM5" 0 (none, [⟨1, ⟨1, 0⟩, ⟨1, 0⟩, 5, 0, 10, 0⟩]) =
      .error .floatCastError :=
  c5_zero_capacity_amended "HOM5" none [⟨1, ⟨1, 0⟩, ⟨1, 0⟩, 5, 0, 10, 0⟩]
    (by decide)

/-- Claim C6, counterexample: a file with no `id == 0` record parses to a
result that is *identical* to that of a file whose depot row carries the
default values — so the result carries no flag or other indication that a
default was substituted. -/
theorem c6_default_depot_counterexample :
    parseHombergerLandmark c6NoDepotFile = parseHombergerLandmark c6DepotFile ∧
    (parseHombergerLandmark c6NoDepotFile).isOk = true := by
  decide

/-- Claim C6, amended: when no `id == 0` record exists the documented default
depot `(x = 50.0, y = 50.0, [0, 1000], service_time = 0)` is substituted into
the parameters — but silently, with no distinguishable indication. -/
theorem c6_default_depot_amended
    (name : String) (cap : Int) (customers : List CustomerData)
    (hne : customers ≠ []) (hcap : cap ≠ 0) :
    (finishParse name cap (none, customers)).map (fun r => r.2.depot) =
      .ok ⟨⟨50, 0⟩, ⟨50, 0⟩, 0, 1000, 0⟩ := by
  unfold finishParse
  simp [hne, hcap, Except.map]

/-- Claim C6, amended witness: the silent default substitution at a concrete
instance. -/
theorem c6_default_depot_amended_witness :
    (finishParse "HOM6" 100 (none, [⟨1, ⟨1, 0⟩, ⟨1, 0⟩, 5, 0, 10, 0⟩])).map
        (fun r => r.2.depot) = .ok ⟨⟨50, 0⟩, ⟨50, 0⟩, 0, 1000, 0⟩ :=
  c6_default_depot_amended "HOM6" 100 [⟨1, ⟨1, 0⟩, ⟨1, 0⟩, 5, 0, 10, 0⟩]
    (by decide) (by decide)

/-- Claim C7: for every fixed positive capacity the fleet-size estimate is
monotonically non-decreasing in the total demand, and it is at least 1 on
every input. -/
theorem c7_monotone_fleet_estimate :
    (∀ cap : Int, 0 < cap → ∀ d₁ d₂ : Int, d₁ ≤ d₂ →
      estimatedVehicles d₁ cap ≤ estimatedVehicles d₂ cap) ∧
    (∀ td cap : Int, 1 ≤ estimatedVehicles td cap) := by
  constructor
  · intro cap hc d₁ d₂ hd
    rw [estimatedVehicles_eq_max_one_floor d₁ cap hc,
        estimatedVehicles_eq_max_one_floor d₂ cap hc]
    have hcap : (0 : ℚ) < (cap : ℚ) := by exact_mod_cast hc
    have h1 : (d₁ : ℚ) / (cap : ℚ) ≤ (d₂ : ℚ) / (cap : ℚ) :=
      (div_le_div_iff_of_pos_right hcap).mpr (by exact_mod_cast hd)
    have h2 : (d₁ : ℚ) / (cap : ℚ) * (6 / 5) ≤ (d₂ : ℚ) / (cap : ℚ) * (6 / 5) :=
      mul_le_mul_of_nonneg_right h1 (by norm_num)
    exact max_le_max le_rfl (Int.floor_le_floor h2)
  · intro td cap
    exact le_max_left _ _

/-- Claim C7, witness: monotonicity and the lower bound at concrete inputs. -/
theorem c7_monotone_fleet_estimate_witness :
    estimatedVehicles 100 200 ≤ estimatedVehicles 200 200 ∧
    1 ≤ estimatedVehicles (-7) 3 :=
  ⟨c7_monotone_fleet_estimate.1 200 (by norm_num) 100 200 (by norm_num),
   c7_monotone_fleet_estimate.2 (-7) 3⟩

/-- Claim C8: in the landmark row loop, a line whose token count differs
from 7 is skipped without error and contributes nothing (the loop behaves
exactly as on the file with those lines removed), and — when every 7-token
line casts to numeric fields — each 7-token line yields exactly one parsed
row: the loop succeeds with one row per kept line, split into depot and
customers. -/
theorem c8_skip_tolerance (ls : List String) :
    collectLandmark ls = collectLandmark (keptLines ls) ∧
    ((∀ l ∈ ls, (tokens l).length = 7 → (castRow (tokens l)).toOption.isSome) →
      (rowsOf ls).length = (keptLines ls).length ∧
      collectLandmark ls = .ok (pyPartition (rowsOf ls))) := by
  induction ls with
  | nil => exact ⟨rfl, fun _ => ⟨rfl, rfl⟩⟩
  | cons l ls ih =>
    by_cases h7 : (tokens l).length = 7
    · constructor
      · have hkept : keptLines (l :: ls) = l :: keptLines ls := by
          simp [keptLines, List.filter_cons, h7]
        rw [hkept]
        simp [collectLandmark, h7, ih.1]
      · intro H
        have hl := H l (List.mem_cons_self l ls) h7
        rcases hc : castRow (tokens l) with e | r
        · rw [hc] at hl; simp [Except.toOption] at hl
        · have ihH := ih.2 (fun x hx hx7 => H x (List.mem_cons_of_mem l hx) hx7)
          have hkept : keptLines (l :: ls) = l :: keptLines ls := by
            simp [keptLines, List.filter_cons, h7]
          have hrows : rowsOf (l :: ls) = r :: rowsOf ls := by
            simp [rowsOf, hkept, List.filterMap_cons, hc, Except.toOption]
          constructor
          · rw [hrows, hkept]
            simp [ihH.1]
          · rw [hrows]
            simp only [collectLandmark, h7, if_true, hc]
            rw [ihH.2]
            rcases hP : pyPartition (rowsOf ls) with ⟨d, cs⟩
            simp only [pyPartition, hP]
            by_cases hid : r.customer_id = 0 <;>
              simp [Bind.bind, Except.bind, hid]
    · have hkept : keptLines (l :: ls) = keptLines ls := by
        simp [keptLines, List.filter_cons, h7]
      have hrows : rowsOf (l :: ls) = rowsOf ls := by
        simp [rowsOf, hkept]
      constructor
      · simp only [collectLandmark, h7, if_false, hkept]
        exact ih.1
      · intro H
        have ihH := ih.2 (fun x hx hx7 => H x (List.mem_cons_of_mem l hx) hx7)
        rw [hrows, hkept]
        refine ⟨ihH.1, ?_⟩
        simp only [collectLandmark, h7, if_false]
        exact ihH.2

/-- Claim C8, witness: the skip tolerance on a concrete line list with one
stray annotation line between two data rows. -/
theorem c8_skip_tolerance_witness :
    collectLandmark c8WitnessLines = collectLandmark (keptLines c8WitnessLines) ∧
    ((rowsOf c8WitnessLines).length = (keptLines c8WitnessLines).length ∧
      collectLandmark c8WitnessLines = .ok (pyPartition (rowsOf c8WitnessLines))) :=
  ⟨(c8_skip_tolerance c8WitnessLines).1,
   (c8_skip_tolerance c8WitnessLines).2 (by decide)⟩

/-- A row with fewer than 7 tokens whose present tokens all cast in their
field positions fails inside `castRow` at the first out-of-range index
(`IndexError`), never by skipping. -/
theorem castRow_short (parts : List String) (hlen : parts.length < 7)
    (hok : ∀ k (h : k < parts.length), fieldOk k (parts.get ⟨k, h⟩)) :
    castRow parts = .error .indexError := by
  rcases parts with _ | ⟨a, _ | ⟨b, _ | ⟨c, _ | ⟨d, _ | ⟨e, _ | ⟨f, _ | ⟨g, rest⟩⟩⟩⟩⟩⟩⟩
  · -- 0 tokens
    have pf : pyGet ([] : List String) 0 = .error .indexError := rfl
    simp [castRow, pf, Bind.bind, Except.bind]
  · -- 1 tokens
    have h0 := hok 0 (by simp)
    simp only [fieldOk, List.get] at h0
    rcases hE0 : pyInt a with e0 | v0
    · rw [hE0] at h0; simp [Except.toOption] at h0
    have p0 : pyGet [a] 0 = .ok a := rfl
    have pf : pyGet [a] 1 = .error .indexError := rfl
    simp [castRow, p0, pf, hE0, Bind.bind, Except.bind]
  · -- 2 tokens
    have h0 := hok 0 (by simp)
    simp only [fieldOk, List.get] at h0
    rcases hE0 : pyInt a with e0 | v0
    · rw [hE0] at h0; simp [Except.toOption] at h0
    have h1 := hok 1 (by simp)
    simp only [fieldOk, List.get] at h1
    rcases hE1 : pyFloat b with e1 | v1
    · rw [hE1] at h1; simp [Except.toOption] at h1
    have p0 : pyGet [a, b] 0 = .ok a := rfl
    have p1 : pyGet [a, b] 1 = .ok b := rfl
    have pf : pyGet [a, b] 2 = .error .indexError := rfl
    simp [castRow, p0, p1, pf, hE0, hE1, Bind.bind, Except.bind]
  · -- 3 tokens
    have h0 := hok 0 (by simp)
    simp only [fieldOk, List.get] at h0
    rcases hE0 : pyInt a with e0 | v0
    · rw [hE0] at h0; simp [Except.toOption] at h0
    have h1 := hok 1 (by simp)
    simp only [fieldOk, List.get] at h1
    rcases hE1 : pyFloat b with e1 | v1
    · rw [hE1] at h1; simp [Except.toOption] at h1
    have h2 := hok 2 (by simp)
    simp only [fieldOk, List.get] at h2
    rcases hE2 : pyFloat c with e2 | v2
    · rw [hE2] at h2; simp [Except.toOption] at h2
    have p0 : pyGet [a, b, c] 0 = .ok a := rfl
    have p1 : pyGet [a, b, c] 1 = .ok b := rfl
    have p2 : pyGet [a, b, c] 2 = .ok c := rfl
    have pf : pyGet [a, b, c] 3 = .error .indexError := rfl
    simp [castRow, p0, p1, p2, pf, hE0, hE1, hE2, Bind.bind, Except.bind]
  · -- 4 tokens
    have h0 := hok 0 (by simp)
    simp only [fieldOk, List.get] at h0
    rcases hE0 : pyInt a with e0 | v0
    · rw [hE0] at h0; simp [Except.toOption] at h0
    have h1 := hok 1 (by simp)
    simp only [fieldOk, List.get] at h1
    rcases hE1 : pyFloat b with e1 | v1
    · rw [hE1] at h1; simp [Except.toOption] at h1
    have h2 := hok 2 (by simp)
    simp only [fieldOk, List.get] at h2
    rcases hE2 : pyFloat c with e2 | v2
    · rw [hE2] at h2; simp [Except.toOption] at h2
    have h3 := hok 3 (by simp)
    simp only [fieldOk, List.get] at h3
    rcases hE3 : pyInt d with e3 | v3
    · rw [hE3] at h3; simp [Except.toOption] at h3
    have p0 : pyGet [a, b, c, d] 0 = .ok a := rfl
    have p1 : pyGet [a, b, c, d] 1 = .ok b := rfl
    have p2 : pyGet [a, b, c, d] 2 = .ok c := rfl
    have p3 : pyGet [a, b, c, d] 3 = .ok d := rfl
    have pf : pyGet [a, b, c, d] 4 = .error .indexError := rfl
    simp [castRow, p0, p1, p2, p3, pf, hE0, hE1, hE2, hE3, Bind.bind, Except.bind]
  · -- 5 tokens
    have h0 := hok 0 (by simp)
    simp only [fieldOk, List.get] at h0
    rcases hE0 : pyInt a with e0 | v0
    · rw [hE0] at h0; simp [Except.toOption] at h0
    have h1 := hok 1 (by simp)
    simp only [fieldOk, List.get] at h1
    rcases hE1 : pyFloat b with e1 | v1
    · rw [hE1] at h1; simp [Except.toOption] at h1
    have h2 := hok 2 (by simp)
    simp only [fieldOk, List.get] at h2
    rcases hE2 : pyFloat c with e2 | v2
    · rw [hE2] at h2; simp [Except.toOption] at h2
    have h3 := hok 3 (by simp)
    simp only [fieldOk, List.get] at h3
    rcases hE3 : pyInt d with e3 | v3
    · rw [hE3] at h3; simp [Except.toOption] at h3
    have h4 := hok 4 (by simp)
    simp only [fieldOk, List.get] at h4
    rcases hE4 : pyInt e with e4 | v4
    · rw [hE4] at h4; simp [Except.toOption] at h4
    have p0 : pyGet [a, b, c, d, e] 0 = .ok a := rfl
    have p1 : pyGet [a, b, c, d, e] 1 = .ok b := rfl
    have p2 : pyGet [a, b, c, d, e] 2 = .ok c := rfl
    have p3 : pyGet [a, b, c, d, e] 3 = .ok d := rfl
    have p4 : pyGet [a, b, c, d, e] 4 = .ok e := rfl
    have pf : pyGet [a, b, c, d, e] 5 = .error .indexError := rfl
    simp [castRow, p0, p1, p2, p3, p4, pf, hE0, hE1, hE2, hE3, hE4, Bind.bind, Except.bind]
  · -- 6 tokens
    have h0 := hok 0 (by simp)
    simp only [fieldOk, List.get] at h0
    rcases hE0 : pyInt a with e0 | v0
    · rw [hE0] at h0; simp [Except.toOption] at h0
    have h1 := hok 1 (by simp)
    simp only [fieldOk, List.get] at h1
    rcases hE1 : pyFloat b with e1 | v1
    · rw [hE1] at h1; simp [Except.toOption] at h1
    have h2 := hok 2 (by simp)
    simp only [fieldOk, List.get] at h2
    rcases hE2 : pyFloat c with e2 | v2
    · rw [hE2] at h2; simp [Except.toOption] at h2
    have h3 := hok 3 (by simp)
    simp only [fieldOk, List.get] at h3
    rcases hE3 : pyInt d with e3 | v3
    · rw [hE3] at h3; simp [Except.toOption] at h3
    have h4 := hok 4 (by simp)
    simp only [fieldOk, List.get] at h4
    rcases hE4 : pyInt e with e4 | v4
    · rw [hE4] at h4; simp [Except.toOption] at h4
    have h5 := hok 5 (by simp)
    simp only [fieldOk, List.get] at h5
    rcases hE5 : pyInt f with e5 | v5
    · rw [hE5] at h5; simp [Except.toOption] at h5
    have p0 : pyGet [a, b, c, d, e, f] 0 = .ok a := rfl
    have p1 : pyGet [a, b, c, d, e, f] 1 = .ok b := rfl
    have p2 : pyGet [a, b, c, d, e, f] 2 = .ok c := rfl
    have p3 : pyGet [a, b, c, d, e, f] 3 = .ok d := rfl
    have p4 : pyGet [a, b, c, d, e, f] 4 = .ok e := rfl
    have p5 : pyGet [a, b, c, d, e, f] 5 = .ok f := rfl
    have pf : pyGet [a, b, c, d, e, f] 6 = .error .indexError := rfl
    simp [castRow, p0, p1, p2, p3, p4, p5, pf, hE0, hE1, hE2, hE3, hE4, hE5, Bind.bind, Except.bind]
  · simp at hlen; omega

/-- Claim C9: in the fixed-offset variant, a reached data line with fewer
than 7 whitespace tokens (whose present tokens are numerically well-formed)
makes the row loop fail with the out-of-range `IndexError`; there is no
token-count skip tolerance, as `parseHombergerFixed` on a concrete file with
a 2-token row confirms end to end. -/
theorem c9_fixed_short_line :
    (∀ (lines : List String) (i : Nat) (rest : List Nat) (h : i < lines.length),
      (tokens (lines.get ⟨i, h⟩)).length < 7 →
      (∀ k (hk : k < (tokens (lines.get ⟨i, h⟩)).length),
        fieldOk k ((tokens (lines.get ⟨i, h⟩)).get ⟨k, hk⟩)) →
      collectFixed lines (i :: rest) = .error .indexError) ∧
    parseHombergerFixed c9File = .error .indexError := by
  constructor
  · intro lines i rest h hshort hok
    have hcast := castRow_short _ hshort hok
    simp only [List.get_eq_getElem] at hcast
    simp only [collectFixed]
    rw [dif_pos h]
    simp [hcast, Bind.bind, Except.bind]
  · decide

/-- Claim C9, witness: the short-row failure at a concrete one-line file
whose only line is the 2-token row `"5 2.0"`. -/
theorem c9_fixed_short_line_witness :
    collectFixed ["5 2.0"] [0] = .error .indexError :=
  c9_fixed_short_line.1 ["5 2.0"] 0 [] (by decide) (by decide) (by decide)

/-- `lines[0]` on a non-empty list. -/
theorem pyGet_cons_zero {α : Type} (x : α) (xs : List α) :
    pyGet (x :: xs) 0 = .ok x := by
  simp [pyGet]

/-- `lines[1]` on a list with at least two elements. -/
theorem pyGet_cons_one {α : Type} (x y : α) (xs : List α) :
    pyGet (x :: y :: xs) 1 = .ok y := by
  simp [pyGet]

/-- Claim C10: the declared point count read from the landmark header is not
used to bound the row loop: replacing it by any other numeral leaves the
parse result unchanged, and concretely a file declaring 100 points with 2
data rows parses without error to 1 customer while a file declaring 1 point
with 4 data rows parses without error to 3 customers. -/
theorem c10_count_not_binding :
    (∀ (name hl hl' : String) (body : List String) (a a' c : String) (n n' : Int),
      strStartsWith name "CUSTOMER" = false →
      strStartsWith hl "CUSTOMER" = false →
      strStartsWith hl' "CUSTOMER" = false →
      tokens hl = [a, c] → tokens hl' = [a', c] →
      pyInt a = .ok n → pyInt a' = .ok n' →
      parseHombergerLandmark (name :: hl :: "CUSTOMER" :: body) =
        parseHombergerLandmark (name :: hl' :: "CUSTOMER" :: body)) ∧
    (parseHombergerLandmark c10FewFile).map (fun r => r.1.length) = .ok 1 ∧
    (parseHombergerLandmark c10ManyFile).map (fun r => r.1.length) = .ok 3 := by
  refine ⟨?_, by decide, by decide⟩
  intro name hl hl' body a a' c n n' hname hh hh' htok htok' hpa hpa'
  have hs : strStartsWith "CUSTOMER" "CUSTOMER" = true := rfl
  have hfind : findSentinel (name :: hl :: "CUSTOMER" :: body) = some 2 := by
    simp [findSentinel, hname, hh, hs]
  have hfind' : findSentinel (name :: hl' :: "CUSTOMER" :: body) = some 2 := by
    simp [findSentinel, hname, hh', hs]
  simp [parseHombergerLandmark, hfind, hfind', pyGet_cons_zero, pyGet_cons_one,
    htok, htok', hpa, hpa', Bind.bind, Except.bind, List.drop]

/-- Claim C10, witness: changing the declared count from 100 to 5 leaves the
parse of a concrete two-row file unchanged. -/
theorem c10_count_not_binding_witness :
    parseHombergerLandmark
        ["W10", "100 50", "CUSTOMER", "0 1.0 1.0 0 0 10 0", "1 1.0 1.0 5 0 10 0"] =
      parseHombergerLandmark
        ["W10", "5 50", "CUSTOMER", "0 1.0 1.0 0 0 10 0", "1 1.0 1.0 5 0 10 0"] :=
  c10_count_not_binding.1 "W10" "100 50" "5 50"
    ["0 1.0 1.0 0 0 10 0", "1 1.0 1.0 5 0 10 0"] "100" "5" "50" 100 5
    (by decide) (by decide) (by decide) (by decide) (by decide) (by decide)
    (by decide)
